import Mathlib

/-!
Shallow embedding of the egress-agent core (`src/egress_agent.py`,
`src/webhook_server.py`) and proofs of the specification claims.

Dynamically-typed Python values flowing through the agent are modelled by the
JSON-like type `JVal`; Python operations that can raise (attribute access on a
non-dict, iteration of a non-iterable, unhashable set membership, ...) are
modelled in the `Except String` monad, the error string standing for the
exception.  Numbers are modelled as integers: no claim involves non-integer
JSON numbers.
-/

namespace EgressSpec

/-- A JSON-like Python value (`None`/`bool`/`int`/`str`/`list`/`dict`). -/
inductive JVal where
  | null : JVal
  | bool : Bool → JVal
  | num : Int → JVal
  | str : String → JVal
  | arr : List JVal → JVal
  | obj : List (String × JVal) → JVal

mutual
/-- Structural (Python `==`) equality of JSON-like values. -/
def JVal.beq : JVal → JVal → Bool
  | .null, .null => true
  | .bool a, .bool b => a == b
  | .num a, .num b => a == b
  | .str a, .str b => a == b
  | .arr a, .arr b => JVal.beqList a b
  | .obj a, .obj b => JVal.beqPairs a b
  | _, _ => false

/-- Elementwise equality of value lists. -/
def JVal.beqList : List JVal → List JVal → Bool
  | [], [] => true
  | a :: as', b :: bs' => JVal.beq a b && JVal.beqList as' bs'
  | _, _ => false

/-- Elementwise equality of key/value pair lists. -/
def JVal.beqPairs : List (String × JVal) → List (String × JVal) → Bool
  | [], [] => true
  | a :: as', b :: bs' => (a.1 == b.1 && JVal.beq a.2 b.2) && JVal.beqPairs as' bs'
  | _, _ => false
end

instance : BEq JVal := ⟨JVal.beq⟩

/-- Single-quote character, used in the validator's error messages. -/
def sq : String := (Char.ofNat 39).toString

/-- Wrap a string in single quotes, as Python error messages do. -/
def quoted (s : String) : String := sq ++ s ++ sq

/-- Python truthiness of a JSON-like value. -/
def pyTruthy : JVal → Bool
  | .null => false
  | .bool b => b
  | .num n => !(n == 0)
  | .str s => !(s == "")
  | .arr xs => !xs.isEmpty
  | .obj kvs => !kvs.isEmpty

/-- Truthiness of an optional value (`dict.get` returns `None` when absent). -/
def pyTruthyO : Option JVal → Bool
  | none => false
  | some v => pyTruthy v

/-- First-match association lookup; models lookup in a Python dict
(keys of dicts built from JSON are unique). -/
def jLookup (kvs : List (String × JVal)) (k : String) : Option JVal :=
  (kvs.find? (fun kv => kv.1 == k)).map (fun kv => kv.2)

/-- `d.get(k)`: raises `AttributeError` unless `d` is a dict. -/
def pyGetOpt (v : JVal) (k : String) : Except String (Option JVal) :=
  match v with
  | .obj kvs => .ok (jLookup kvs k)
  | _ => .error ("AttributeError: object has no attribute get (key " ++ k ++ ")")

/-- `d[k]` on a dict: `KeyError` when absent, `TypeError` on a non-dict. -/
def pyIndex (v : JVal) (k : String) : Except String JVal :=
  match v with
  | .obj kvs =>
    match jLookup kvs k with
    | some x => .ok x
    | none => .error ("KeyError: " ++ k)
  | _ => .error ("TypeError: value is not subscriptable (key " ++ k ++ ")")

/-- Python iteration `for x in v`: lists yield elements, strings yield
one-character strings, dicts yield their keys; other values raise. -/
def pyIter (v : JVal) : Except String (List JVal) :=
  match v with
  | .arr xs => .ok xs
  | .str s => .ok (s.data.map (fun c => .str c.toString))
  | .obj kvs => .ok (kvs.map (fun kv => .str kv.1))
  | _ => .error "TypeError: object is not iterable"

/-- `needle` occurs as a contiguous sublist of `hay`. -/
def isSubList (needle : List Char) : List Char → Bool
  | [] => needle.isEmpty
  | c :: rest => needle.isPrefixOf (c :: rest) || isSubList needle rest

/-- `k in v` for a string key: key containment on dicts, membership on lists,
substring test on strings; other values raise `TypeError`. -/
def pyIn (k : String) (v : JVal) : Except String Bool :=
  match v with
  | .obj kvs => .ok (kvs.any (fun kv => kv.1 == k))
  | .arr xs => .ok (xs.any (fun x => x == .str k))
  | .str s => .ok (isSubList k.data s.data)
  | _ => .error "TypeError: argument is not a container"

/-- ASCII lower-casing of a string (`str.lower()`). -/
def lowerStr (s : String) : String := ⟨s.data.map Char.toLower⟩

/-- ASCII upper-casing of a string (`str.upper()`). -/
def upperStr (s : String) : String := ⟨s.data.map Char.toUpper⟩

/-- Code-point lexicographic order on character lists (Python `<=`). -/
def charListLe : List Char → List Char → Bool
  | [], _ => true
  | _ :: _, [] => false
  | a :: as', b :: bs' => if a == b then charListLe as' bs' else a.toNat ≤ b.toNat

/-- Python `<=` on strings. -/
def strLe (a b : String) : Bool := charListLe a.data b.data

/-- `v.lower()`: raises `AttributeError` unless `v` is a string. -/
def pyLower (v : JVal) : Except String String :=
  match v with
  | .str s => .ok (lowerStr s)
  | _ => .error "AttributeError: object has no attribute lower"

mutual
/-- Python `repr` of a JSON-like value. -/
def pyRepr : JVal → String
  | .null => "None"
  | .bool true => "True"
  | .bool false => "False"
  | .num n => toString n
  | .str s => quoted s
  | .arr xs => "[" ++ String.intercalate ", " (pyReprList xs) ++ "]"
  | .obj kvs => "\x7b" ++ String.intercalate ", " (pyReprPairs kvs) ++ "\x7d"

/-- `repr` of each element of a list. -/
def pyReprList : List JVal → List String
  | [] => []
  | x :: xs => pyRepr x :: pyReprList xs

/-- `repr` of each key/value pair of a dict. -/
def pyReprPairs : List (String × JVal) → List String
  | [] => []
  | kv :: xs => (quoted kv.1 ++ ": " ++ pyRepr kv.2) :: pyReprPairs xs
end

/-- Python `str` of a JSON-like value (as used by f-string interpolation). -/
def pyStr : JVal → String
  | .str s => s
  | v => pyRepr v

/-- Decimal value of a digit list (callers check the digits first). -/
def decValue (cs : List Char) : Nat :=
  cs.foldl (fun a c => a * 10 + (c.toNat - 48)) 0

/-- Split a character list on every occurrence of `sep`
(the char-level `str.split(sep)`). -/
def splitOnChar (sep : Char) : List Char → List (List Char)
  | [] => [[]]
  | c :: cs =>
    match splitOnChar sep cs with
    | [] => [[]]
    | g :: gs => if c == sep then [] :: g :: gs else (c :: g) :: gs

/-- Split a character list on every occurrence of `::`
(the char-level `s.split('::')`). -/
def splitOnDoubleColon : List Char → List (List Char)
  | [] => [[]]
  | ':' :: ':' :: cs =>
    (match splitOnDoubleColon cs with
     | [] => [[], []]
     | g :: gs => [] :: g :: gs)
  | c :: cs =>
    match splitOnDoubleColon cs with
    | [] => [[c]]
    | g :: gs => (c :: g) :: gs

/-- A valid dotted-quad octet: 1-3 decimal digits, no leading zero
(`ipaddress` rejects them), value at most 255. -/
def validOctet (cs : List Char) : Bool :=
  !cs.isEmpty && cs.length ≤ 3 && cs.all Char.isDigit &&
    (cs.length == 1 || !(cs.headD ' ' == '0')) && decValue cs ≤ 255

/-- A valid IPv4 address: exactly four valid octets. -/
def validIPv4Addr (cs : List Char) : Bool :=
  let parts := splitOnChar '.' cs
  parts.length == 4 && parts.all validOctet

/-- Hexadecimal digit test. -/
def isHexDigitChar (c : Char) : Bool :=
  c.isDigit || ('a' ≤ c && c ≤ 'f') || ('A' ≤ c && c ≤ 'F')

/-- A valid IPv6 hextet: 1-4 hex digits. -/
def validHextet (cs : List Char) : Bool :=
  !cs.isEmpty && cs.length ≤ 4 && cs.all isHexDigitChar

/-- Groups contributed by one side of a `::`: each colon-separated part is a
hextet, except that a final dotted-quad counts as two groups.  Returns the
group count, or `none` if some part is invalid. -/
def hextetGroups : List (List Char) → Option Nat
  | [] => some 0
  | [p] =>
    if validHextet p then some 1
    else if validIPv4Addr p then some 2
    else none
  | p :: rest =>
    if validHextet p then (hextetGroups rest).map (· + 1) else none

/-- A valid IPv6 address: eight groups, or a single `::` standing for at
least one zero group (trailing dotted-quad allowed). -/
def validIPv6Addr (cs : List Char) : Bool :=
  match splitOnDoubleColon cs with
  | [whole] =>
    (match hextetGroups (splitOnChar ':' whole) with
     | some n => n == 8
     | none => false)
  | [l, r] =>
    let lg := if l.isEmpty then some 0 else hextetGroups (splitOnChar ':' l)
    let rg := if r.isEmpty then some 0 else hextetGroups (splitOnChar ':' r)
    (match lg, rg with
     | some a, some b => a + b ≤ 7
     | _, _ => false)
  | _ => false

/-- A valid numeric prefix length: decimal digits, value at most `maxLen`
(mirrors `ipaddress._prefix_from_prefix_string`). -/
def validPrefixLen (cs : List Char) (maxLen : Nat) : Bool :=
  !cs.isEmpty && cs.all Char.isDigit && decValue cs ≤ maxLen

/-- Acceptance of a CIDR string by `ipaddress.ip_network(s, strict=False)`
(with `strict=False` host bits may be set, so only the shape is checked).
Model scope: numeric prefix lengths; dotted-netmask suffixes are not
modelled, no claim involves them. -/
def ipNetworkStrOk (s : String) : Bool :=
  match splitOnChar '/' s.data with
  | [addr] => validIPv4Addr addr || validIPv6Addr addr
  | [addr, p] =>
    (validIPv4Addr addr && validPrefixLen p 32) ||
      (validIPv6Addr addr && validPrefixLen p 128)
  | _ => false

/-- Acceptance of a JSON-like value by `ipaddress.ip_network(v, strict=False)`:
strings are parsed; ints in address range are valid; Python `bool` is an int
(0 or 1, both valid); `str()` of the remaining values never parses. -/
def ipNetworkOk : JVal → Bool
  | .str s => ipNetworkStrOk s
  | .num n => decide (0 ≤ n ∧ n < 2 ^ 128)
  | .bool _ => true
  | _ => false

/-- Result of `PolicyValidator.validate`. -/
structure ValidationResult where
  is_valid : Bool
  errors : List String

namespace PolicyValidator

/-- `PolicyValidator.VALID_AWS_SERVICES`. -/
def VALID_AWS_SERVICES : List String := ["s3", "rds", "ec2", "dynamodb", "lambda", "ecs"]

/-- `PolicyValidator.VALID_ACTIONS`. -/
def VALID_ACTIONS : List String := ["allow", "deny"]

/-- `v in \x7b'allow', 'deny'\x7d`: membership of a JSON-like value in a set of
strings; unhashable values (lists, dicts) raise `TypeError`. -/
def pySetMem (v : JVal) (s : List String) : Except String Bool :=
  match v with
  | .arr _ => .error "TypeError: unhashable type: list"
  | .obj _ => .error "TypeError: unhashable type: dict"
  | .str x => .ok (s.contains x)
  | _ => .ok false

/-- `PolicyValidator._validate_destination`: the errors this destination
appends (the source mutates a shared list; the returned list models the
appended suffix).  Raises where the Python raises. -/
def _validate_destination (dest : JVal) (index : Nat) : Except String (List String) := do
  let name ← pyGetOpt dest "name"
  let e1 : List String :=
    if pyTruthyO name then []
    else ["Destination " ++ toString index ++ ": missing " ++ quoted "name" ++ " field"]
  let ports ← pyGetOpt dest "ports"
  let e2 : List String :=
    if pyTruthyO ports then []
    else ["Destination " ++ toString index ++ ": missing " ++ quoted "ports" ++ " field"]
  let has_cidr ← pyIn "cidr" dest
  let has_aws_service ← pyIn "awsService" dest
  let e3 : List String :=
    if !(has_cidr || has_aws_service) then
      ["Destination " ++ toString index ++ ": must specify either " ++ quoted "cidr" ++
        " or " ++ quoted "awsService"]
    else []
  let e4 : List String :=
    if has_cidr && has_aws_service then
      ["Destination " ++ toString index ++ ": cannot specify both " ++ quoted "cidr" ++
        " and " ++ quoted "awsService"]
    else []
  let e5 ←
    if has_cidr then do
      let c ← pyIndex dest "cidr"
      pure (if ipNetworkOk c then []
        else ["Destination " ++ toString index ++ ": Invalid CIDR format: " ++ pyStr c])
    else pure ([] : List String)
  let e67 ←
    if has_aws_service then do
      let sv ← pyIndex dest "awsService"
      let service ← pyLower sv
      let e6 : List String :=
        if VALID_AWS_SERVICES.contains service then []
        else ["Destination " ++ toString index ++ ": Invalid AWS service: " ++ service]
      let regions ← pyGetOpt dest "regions"
      let e7 : List String :=
        if pyTruthyO regions then []
        else ["Destination " ++ toString index ++ ": AWS service requires " ++
          quoted "regions" ++ " field"]
      pure (e6 ++ e7)
    else pure ([] : List String)
  return e1 ++ e2 ++ e3 ++ e4 ++ e5 ++ e67

/-- `for i, dest in enumerate(destinations): self._validate_destination(dest, i, errors)`. -/
def validateDests : List JVal → Nat → Except String (List String)
  | [], _ => .ok []
  | d :: ds, i => do
    let e ← _validate_destination d i
    let rest ← validateDests ds (i + 1)
    return e ++ rest

/-- `PolicyValidator.validate`. -/
def validate (policy : JVal) : Except String ValidationResult := do
  let default_action := (← pyGetOpt policy "defaultAction").getD (.str "deny")
  let daOk ← pySetMem default_action VALID_ACTIONS
  let e0 : List String :=
    if daOk then [] else ["Invalid defaultAction: " ++ pyStr default_action]
  let destinations := (← pyGetOpt policy "allowedDestinations").getD (.arr [])
  match destinations with
  | .arr ds => do
    let destErrs ← validateDests ds 0
    let errors := e0 ++ destErrs
    return ⟨errors.isEmpty, errors⟩
  | _ => return ⟨false, e0 ++ ["allowedDestinations must be a list"]⟩

end PolicyValidator

/-! ### `json.loads`

A model of Python's JSON decoder, written with explicit fuel (bounded by the
input length, each nesting level consumes at least one character).  Model
scope: integer numbers and the common string escapes; `\uXXXX` escapes and
non-integer numbers make the parse fail, no claim involves them. -/

/-- JSON whitespace. -/
def jsonWs (c : Char) : Bool := c == ' ' || c == '\t' || c == '\n' || c == '\r'

/-- Drop leading JSON whitespace. -/
def skipWs (cs : List Char) : List Char := cs.dropWhile jsonWs

/-- Parse the remainder of a JSON string (the opening quote consumed). -/
def parseJString : List Char → Option (String × List Char)
  | [] => none
  | '"' :: rest => some ("", rest)
  | '\\' :: e :: rest =>
    (match e with
     | '"' => (parseJString rest).map (fun sr => ("\"" ++ sr.1, sr.2))
     | '\\' => (parseJString rest).map (fun sr => ("\\" ++ sr.1, sr.2))
     | '/' => (parseJString rest).map (fun sr => ("/" ++ sr.1, sr.2))
     | 'n' => (parseJString rest).map (fun sr => ("\n" ++ sr.1, sr.2))
     | 't' => (parseJString rest).map (fun sr => ("\t" ++ sr.1, sr.2))
     | 'r' => (parseJString rest).map (fun sr => ("\r" ++ sr.1, sr.2))
     | 'b' => (parseJString rest).map (fun sr => ("\x08" ++ sr.1, sr.2))
     | 'f' => (parseJString rest).map (fun sr => ("\x0c" ++ sr.1, sr.2))
     | _ => none)
  | c :: rest => (parseJString rest).map (fun sr => (c.toString ++ sr.1, sr.2))

/-- Parse a JSON natural number (no leading zeros). -/
def parseJDigits (cs : List Char) : Option (Nat × List Char) :=
  let ds := cs.takeWhile Char.isDigit
  let rest := cs.drop ds.length
  if ds.isEmpty then none
  else if ds.length > 1 && ds.headD ' ' == '0' then none
  else
    match rest with
    | '.' :: _ => none
    | 'e' :: _ => none
    | 'E' :: _ => none
    | _ => some (decValue ds, rest)

/-- Parse a JSON (integer) number. -/
def parseJNum : List Char → Option (JVal × List Char)
  | '-' :: rest => (parseJDigits rest).map (fun nr => (.num (-(nr.1 : Int)), nr.2))
  | cs => (parseJDigits cs).map (fun nr => (.num (nr.1 : Int), nr.2))

mutual
/-- Parse one JSON value. -/
def parseJ : Nat → List Char → Option (JVal × List Char)
  | 0, _ => none
  | fuel + 1, cs =>
    match skipWs cs with
    | 'n' :: 'u' :: 'l' :: 'l' :: rest => some (.null, rest)
    | 't' :: 'r' :: 'u' :: 'e' :: rest => some (.bool true, rest)
    | 'f' :: 'a' :: 'l' :: 's' :: 'e' :: rest => some (.bool false, rest)
    | '"' :: rest => (parseJString rest).map (fun sr => (.str sr.1, sr.2))
    | '[' :: rest =>
      (match skipWs rest with
       | ']' :: rest2 => some (.arr [], rest2)
       | _ => (parseJItems fuel rest).map (fun ir => (.arr ir.1, ir.2)))
    | '\x7b' :: rest =>
      (match skipWs rest with
       | '\x7d' :: rest2 => some (.obj [], rest2)
       | _ => (parseJPairs fuel rest).map (fun pr => (.obj pr.1, pr.2)))
    | other => parseJNum other

/-- Parse the items of a non-empty JSON array up to `]`. -/
def parseJItems : Nat → List Char → Option (List JVal × List Char)
  | 0, _ => none
  | fuel + 1, cs =>
    match parseJ fuel cs with
    | none => none
    | some (v, rest) =>
      match skipWs rest with
      | ',' :: rest2 => (parseJItems fuel rest2).map (fun ir => (v :: ir.1, ir.2))
      | ']' :: rest2 => some ([v], rest2)
      | _ => none

/-- Parse the pairs of a non-empty JSON object up to the closing brace. -/
def parseJPairs : Nat → List Char → Option (List (String × JVal) × List Char)
  | 0, _ => none
  | fuel + 1, cs =>
    match skipWs cs with
    | '"' :: rest =>
      (match parseJString rest with
       | none => none
       | some (k, rest2) =>
         match skipWs rest2 with
         | ':' :: rest3 =>
           (match parseJ fuel rest3 with
            | none => none
            | some (v, rest4) =>
              match skipWs rest4 with
              | ',' :: rest5 => (parseJPairs fuel rest5).map (fun pr => ((k, v) :: pr.1, pr.2))
              | '\x7d' :: rest5 => some ([(k, v)], rest5)
              | _ => none)
         | _ => none)
    | _ => none
end

/-- `json.loads`: parse a complete JSON document. -/
def loads (s : String) : Except String JVal :=
  match parseJ (s.length + 1) s.data with
  | some (v, rest) => if (skipWs rest).isEmpty then .ok v else .error "Extra data"
  | none => .error "Expecting value"

/-! ### `EgressAgent` (the translator)

`AWSServiceResolver.resolve_service_cidrs` reaches the network and a cache;
for the translation claims the collaborator is abstracted as a function `R`
from the lower-cased service name and the raw `regions` value to the resolved
CIDR list (the resolver itself is modelled separately below). -/

/-- One `\x7b'protocol': 'TCP', 'port': port\x7d` entry of an egress rule. -/
structure PortEntry where
  protocol : String
  port : JVal

/-- One generated egress rule: the `to` list as its `ipBlock` CIDR values,
and the `ports` list. -/
structure EgressRule where
  toAddrs : List JVal
  ports : List PortEntry

/-- The generated NetworkPolicy object (`generate_network_policy`'s dict). -/
structure NetworkPolicy where
  apiVersion : String
  kind : String
  name : String
  nspace : String
  labels : List (String × String)
  podSelector : JVal
  policyTypes : List String
  egress : List EgressRule

namespace EgressAgent

/-- `EgressAgent._create_egress_rule`. -/
def _create_egress_rule (R : String → JVal → List String) (destination : JVal) :
    Except String (Option EgressRule) := do
  let portsVal := (← pyGetOpt destination "ports").getD (.arr [])
  let portItems ← pyIter portsVal
  let ports := portItems.map (fun p => PortEntry.mk "TCP" p)
  if ← pyIn "cidr" destination then do
    let c ← pyIndex destination "cidr"
    return some ⟨[c], ports⟩
  else if ← pyIn "awsService" destination then do
    let sv ← pyIndex destination "awsService"
    let service ← pyLower sv
    let regions := (← pyGetOpt destination "regions").getD (.arr [])
    match R service regions with
    | [] => return none
    | c0 :: _ => return some ⟨[.str c0], ports⟩
  else
    return none

/-- The destination loop of `generate_network_policy`: rules are appended in
source order, destinations producing `None` are skipped. -/
def buildEgress (R : String → JVal → List String) :
    List JVal → Except String (List EgressRule)
  | [] => .ok []
  | d :: ds => do
    let r ← _create_egress_rule R d
    let rest ← buildEgress R ds
    match r with
    | some rule => return rule :: rest
    | none => return rest

/-- `EgressAgent.generate_network_policy`. -/
def generate_network_policy (R : String → JVal → List String) (nspace : String)
    (policy_data : JVal) : Except String NetworkPolicy := do
  let pj := (← pyGetOpt policy_data "policy.json").getD (.str "\x7b\x7d")
  let s ← (match pj with
    | .str s => Except.ok s
    | _ => Except.error "TypeError: the JSON object must be str")
  let policy ← (match loads s with
    | .ok v => Except.ok v
    | .error e => Except.error ("ValueError: Invalid JSON in policy: " ++ e))
  let validation ← PolicyValidator.validate policy
  if !validation.is_valid then
    throw ("ValueError: Invalid policy: " ++ pyStr (.arr (validation.errors.map .str)))
  let dests := (← pyGetOpt policy "allowedDestinations").getD (.arr [])
  let destList ← pyIter dests
  let egress ← buildEgress R destList
  return ⟨"networking.k8s.io/v1", "NetworkPolicy", "egress-policy-generated", nspace,
    [("managed-by", "egress-agent")], .obj [], ["Egress"], egress⟩

end EgressAgent

/-! ### `AWSServiceResolver`

The external fetch (`requests.get` + `raise_for_status` + `.json()`) is a
parameter: `.error` stands for a network error, a non-2xx response or an
unparsable payload; `.ok payload` is the decoded JSON document.  `time.time()`
is the `now` parameter (seconds).  The Python `try` block is `fetchCidrs`;
on its failure the method logs and returns `[]` without updating state. -/

namespace AWSServiceResolver

/-- `self._cache_ttl = 3600`. -/
def CACHE_TTL : Nat := 3600

/-- The resolver's mutable state: `self._cache` and `self._last_fetch`
(a single timestamp shared by all keys). -/
structure ResolverState where
  cache : List (String × List String)
  last_fetch : Nat

/-- Insertion into a sorted list (ascending). -/
def insertSorted (x : String) : List String → List String
  | [] => [x]
  | y :: ys => if strLe x y then x :: y :: ys else y :: insertSorted x ys

/-- Python `sorted` on strings. -/
def pySorted (xs : List String) : List String := xs.foldr insertSorted []

/-- `cache_key = f"\x7bservice\x7d:\x7b','.join(sorted(regions))\x7d"`. -/
def cacheKey (service : String) (regions : List String) : String :=
  service ++ ":" ++ String.intercalate "," (pySorted regions)

/-- `prefix.get('service') == service_upper` (Python `==` of a JSON value
against a string). -/
def jEqStr (v : Option JVal) (s : String) : Bool :=
  match v with
  | some (.str x) => x == s
  | _ => false

/-- `prefix.get('region') in regions` (list of Python strings). -/
def jMemStrs (v : Option JVal) (xs : List String) : Bool :=
  match v with
  | some (.str x) => xs.contains x
  | _ => false

/-- The filter loop over `ip_ranges.get('prefixes', [])`: collect
`prefix['ip_prefix']` of entries whose service (upper-cased) and region
match.  Model scope: collected addresses are strings. -/
def collectCidrs (service_upper : String) (regions : List String) :
    List JVal → Except String (List String)
  | [] => .ok []
  | p :: ps => do
    let svc ← pyGetOpt p "service"
    let reg ← pyGetOpt p "region"
    if jEqStr svc service_upper && jMemStrs reg regions then do
      let ip ← pyIndex p "ip_prefix"
      let ipS ← (match ip with
        | .str s => Except.ok s
        | _ => Except.error "TypeError: non-string ip range")
      let rest ← collectCidrs service_upper regions ps
      return ipS :: rest
    else
      collectCidrs service_upper regions ps

/-- The body of the `try` block: fetch the range table and filter it. -/
def fetchCidrs (fetch : Except String JVal) (service : String) (regions : List String) :
    Except String (List String) := do
  let ip_ranges ← fetch
  let prefixes ← pyIter ((← pyGetOpt ip_ranges "prefixes").getD (.arr []))
  collectCidrs (upperStr service) regions prefixes

/-- Lookup in the cache dict. -/
def jStrsLookup (cache : List (String × List String)) (k : String) : Option (List String) :=
  (cache.find? (fun kv => kv.1 == k)).map (fun kv => kv.2)

/-- `d[k] = v` on the cache dict. -/
def cacheInsert (cache : List (String × List String)) (k : String) (v : List String) :
    List (String × List String) :=
  if cache.any (fun kv => kv.1 == k) then
    cache.map (fun kv => if kv.1 == k then (k, v) else kv)
  else
    cache ++ [(k, v)]

/-- `AWSServiceResolver.resolve_service_cidrs`: returns the resolved list and
the successor state.  The exception handler is part of the definition (the
return type is a plain pair: the method never lets an exception escape). -/
def resolve_service_cidrs (fetch : Except String JVal) (now : Nat) (st : ResolverState)
    (service : String) (regions : List String) : List String × ResolverState :=
  let cache_key := cacheKey service regions
  if (jStrsLookup st.cache cache_key).isSome && now - st.last_fetch < CACHE_TTL then
    ((jStrsLookup st.cache cache_key).getD [], st)
  else
    match fetchCidrs fetch service regions with
    | .ok cidrs => (cidrs, ⟨cacheInsert st.cache cache_key cidrs, now⟩)
    | .error _ => ([], st)

end AWSServiceResolver

/-! ### `webhook_server.validate_configmap` (the admission gate)

The gate's input is the result of `request.get_json(force=True)`: `.error`
when the request body is not JSON, `.ok` the decoded review otherwise.  The
body of the outer `try` is `validateConfigmapBody`, an `Except` computation
whose error carries the exception text together with the value of the `uid`
variable at the raise point; `validate_configmap` is the outer handler.  The
gate calls no mutating capability: its embedding is a pure function of the
request. -/

/-- One admission response (`create_admission_response`'s payload) paired
fields: decision, inner status code, message, echoed uid. -/
structure AdmissionResponse where
  allowed : Bool
  code : Nat
  message : String
  uid : JVal

/-- `create_admission_response`. -/
def create_admission_response (allowed : Bool) (message : String) (uid : JVal) :
    AdmissionResponse :=
  ⟨allowed, if allowed then 200 else 400, message, uid⟩

/-- Attach the current `uid` to an exception. -/
def eU (uid : JVal) : Except String α → Except (String × JVal) α
  | .ok a => .ok a
  | .error e => .error (e, uid)

/-- `labels.get('egress-controller') != 'managed'`, negated. -/
def isManaged (v : Option JVal) : Bool :=
  match v with
  | some (.str s) => s == "managed"
  | _ => false

/-- Python `str.strip()` (ASCII whitespace). -/
def pyStrip (s : String) : String :=
  ⟨(s.data.dropWhile jsonWs).reverse.dropWhile jsonWs |>.reverse⟩

/-- The body of `validate_configmap`'s outer `try` (after `get_json`
succeeded), returning the admission response and the HTTP status. -/
def validateConfigmapBody (admission_review : JVal) :
    Except (String × JVal) (AdmissionResponse × Nat) := do
  let uid0 : JVal := .str ""
  if !pyTruthy admission_review then
    return (create_admission_response false "No data received" uid0, 400)
  let req := (← eU uid0 (pyGetOpt admission_review "request")).getD (.obj [])
  let uid := (← eU uid0 (pyGetOpt req "uid")).getD (.str "")
  let configmap := (← eU uid (pyGetOpt req "object")).getD (.obj [])
  let _operation := (← eU uid (pyGetOpt req "operation")).getD (.str "")
  let md := (← eU uid (pyGetOpt configmap "metadata")).getD (.obj [])
  let _logName := (← eU uid (pyGetOpt md "name")).getD (.str "unknown")
  let labels := (← eU uid (pyGetOpt md "labels")).getD (.obj [])
  let lbl ← eU uid (pyGetOpt labels "egress-controller")
  if !isManaged lbl then
    return (create_admission_response true "Not an egress policy ConfigMap" uid, 200)
  let data := (← eU uid (pyGetOpt configmap "data")).getD (.obj [])
  let policy_json := (← eU uid (pyGetOpt data "policy.json")).getD (.str "")
  let pjStr ← (match policy_json with
    | .str s => Except.ok s
    | _ => Except.error ("AttributeError: object has no attribute strip", uid))
  if pyStrip pjStr == "" then
    return (create_admission_response false "Missing policy.json in ConfigMap data" uid, 400)
  match loads pjStr with
  | .error e =>
    return (create_admission_response false ("Invalid JSON in policy.json: " ++ e) uid, 400)
  | .ok policy => do
    let validation_result ← eU uid (PolicyValidator.validate policy)
    if validation_result.is_valid then
      return (create_admission_response true "Policy validation successful" uid, 200)
    else
      return (create_admission_response false
        ("Policy validation failed: " ++ String.intercalate "; " validation_result.errors)
        uid, 400)

/-- `validate_configmap`: the full gate, including the `get_json` failure
path and the outer fail-closed exception handler. -/
def validate_configmap (input : Except String JVal) : AdmissionResponse × Nat :=
  match input with
  | .error _ => (create_admission_response false "Invalid JSON request" (.str ""), 400)
  | .ok ar =>
    match validateConfigmapBody ar with
    | .ok r => r
    | .error (e, uid) =>
      (create_admission_response false ("Internal validation error: " ++ e) uid, 500)

/-! ### Helper lemmas -/

theorem jLookup_isSome_iff_any (kvs : List (String × JVal)) (k : String) :
    (jLookup kvs k).isSome = kvs.any (fun kv => kv.1 == k) := by
  induction kvs with
  | nil => rfl
  | cons kv rest ih =>
    by_cases hk : kv.1 == k
    · simp [jLookup, List.find?, hk]
    · simp only [jLookup, List.find?, hk] at ih ⊢
      simpa [jLookup, hk] using ih

theorem jLookup_cons_self (k : String) (v : JVal) (rest : List (String × JVal)) :
    jLookup ((k, v) :: rest) k = some v := by
  simp [jLookup, List.find?]

theorem jLookup_cons_ne (k k' : String) (v : JVal) (rest : List (String × JVal))
    (h : (k' == k) = false) : jLookup ((k', v) :: rest) k = jLookup rest k := by
  simp [jLookup, List.find?, h]

theorem any_key_of_jLookup (kvs : List (String × JVal)) (k : String) (v : JVal)
    (h : jLookup kvs k = some v) : kvs.any (fun kv => kv.1 == k) = true := by
  have h2 := jLookup_isSome_iff_any kvs k
  rw [h] at h2
  exact h2.symm

theorem none_key_of_jLookup (kvs : List (String × JVal)) (k : String)
    (h : jLookup kvs k = none) : kvs.any (fun kv => kv.1 == k) = false := by
  have h2 := jLookup_isSome_iff_any kvs k
  rw [h] at h2
  exact h2.symm

/-! ### Claim theorems -/

/-- C3 (amended): `validate` collects all detectable errors in one pass.  With
the `defaultAction` membership test succeeding with result `b` (the test
raises on unhashable values): (i) when `allowedDestinations` is present and is
not a list, validation aborts, skips all per-destination checks, and appends a
single type error after the `defaultAction` errors (so the result holds one or
two errors, not always exactly one); (ii) when it is a list and the
per-destination pass completes, the result concatenates the `defaultAction`
errors with every destination's errors — no short-circuit on the first
error. -/
theorem validate_collects_all_errors (pkvs : List (String × JVal)) (b : Bool)
    (hb : PolicyValidator.pySetMem ((jLookup pkvs "defaultAction").getD (.str "deny"))
      PolicyValidator.VALID_ACTIONS = .ok b) :
    (∀ dv, jLookup pkvs "allowedDestinations" = some dv → (∀ xs, dv ≠ JVal.arr xs) →
      PolicyValidator.validate (.obj pkvs) = .ok ⟨false,
        (if b then [] else ["Invalid defaultAction: " ++
          pyStr ((jLookup pkvs "defaultAction").getD (.str "deny"))]) ++
          ["allowedDestinations must be a list"]⟩) ∧
    (∀ ds destErrs, (jLookup pkvs "allowedDestinations").getD (.arr []) = .arr ds →
      PolicyValidator.validateDests ds 0 = .ok destErrs →
      PolicyValidator.validate (.obj pkvs) = .ok
        ⟨((if b then [] else ["Invalid defaultAction: " ++
            pyStr ((jLookup pkvs "defaultAction").getD (.str "deny"))]) ++ destErrs).isEmpty,
          (if b then [] else ["Invalid defaultAction: " ++
            pyStr ((jLookup pkvs "defaultAction").getD (.str "deny"))]) ++ destErrs⟩) := by
  constructor
  · intro dv hdv hne
    unfold PolicyValidator.validate
    cases dv with
    | arr xs => exact absurd rfl (hne xs)
    | null =>
      simp only [pyGetOpt, bind, Except.bind, pure, Except.pure, hb, hdv, Option.getD_some]
    | bool x =>
      simp only [pyGetOpt, bind, Except.bind, pure, Except.pure, hb, hdv, Option.getD_some]
    | num x =>
      simp only [pyGetOpt, bind, Except.bind, pure, Except.pure, hb, hdv, Option.getD_some]
    | str x =>
      simp only [pyGetOpt, bind, Except.bind, pure, Except.pure, hb, hdv, Option.getD_some]
    | obj x =>
      simp only [pyGetOpt, bind, Except.bind, pure, Except.pure, hb, hdv, Option.getD_some]
  · intro ds destErrs hds hd
    unfold PolicyValidator.validate
    simp only [pyGetOpt, bind, Except.bind, pure, Except.pure, hb, hds, hd]

/-- A two-destination policy used to exercise the C3 accumulation theorem:
invalid `defaultAction`, one destination missing both targets, one carrying
both. -/
def c3wPolicy : List (String × JVal) :=
  [("defaultAction", .str "drop"),
    ("allowedDestinations", .arr [.obj [("name", .str "a"), ("ports", .arr [.num 443])],
      .obj [("name", .str "b"), ("ports", .arr [.num 80]),
        ("cidr", .str "10.0.0.0/16"), ("awsService", .str "s3"),
        ("regions", .arr [.str "us-east-1"])]])]

/-- C3 witness: on a policy with a bad `defaultAction` and two broken
destinations, the single-pass result accumulates all three errors. -/
theorem validate_collects_all_errors_w :
    PolicyValidator.validate (.obj c3wPolicy) = .ok ⟨false,
      ["Invalid defaultAction: drop",
        "Destination 0: must specify either " ++ quoted "cidr" ++ " or " ++ quoted "awsService",
        "Destination 1: cannot specify both " ++ quoted "cidr" ++ " and " ++ quoted "awsService"]⟩ := by
  have h := (validate_collects_all_errors c3wPolicy false rfl).2
    [.obj [("name", .str "a"), ("ports", .arr [.num 443])],
      .obj [("name", .str "b"), ("ports", .arr [.num 80]),
        ("cidr", .str "10.0.0.0/16"), ("awsService", .str "s3"),
        ("regions", .arr [.str "us-east-1"])]]
    ["Destination 0: must specify either " ++ quoted "cidr" ++ " or " ++ quoted "awsService",
      "Destination 1: cannot specify both " ++ quoted "cidr" ++ " and " ++ quoted "awsService"]
    rfl rfl
  exact h.trans (by rfl)

/-- C3 counterexample: with both an invalid `defaultAction` and a non-list
`allowedDestinations`, the aborting result carries two errors, not exactly
one as the claim states. -/
theorem validate_nonlist_abort_two_errors :
    PolicyValidator.validate (.obj [("defaultAction", .str "invalid"),
        ("allowedDestinations", .num 5)]) =
      .ok ⟨false, ["Invalid defaultAction: invalid", "allowedDestinations must be a list"]⟩ ∧
    (["Invalid defaultAction: invalid", "allowedDestinations must be a list"] : List String).length ≠ 1 := by
  exact ⟨rfl, by decide⟩

/-- C4: a destination carrying both `cidr` and `awsService`, with every other
field well-formed (truthy name and ports, parseable CIDR, supported service
with truthy regions), makes `validate` return invalid with exactly the
mutual-exclusion error. -/
theorem both_cidr_and_service_one_error (pkvs dkvs : List (String × JVal))
    (c : JVal) (sv : String)
    (hda : PolicyValidator.pySetMem ((jLookup pkvs "defaultAction").getD (.str "deny"))
      PolicyValidator.VALID_ACTIONS = .ok true)
    (hdest : jLookup pkvs "allowedDestinations" = some (.arr [.obj dkvs]))
    (hname : pyTruthyO (jLookup dkvs "name") = true)
    (hports : pyTruthyO (jLookup dkvs "ports") = true)
    (hcid : jLookup dkvs "cidr" = some c)
    (hcok : ipNetworkOk c = true)
    (hsvc : jLookup dkvs "awsService" = some (.str sv))
    (hsup : PolicyValidator.VALID_AWS_SERVICES.contains (lowerStr sv) = true)
    (hreg : pyTruthyO (jLookup dkvs "regions") = true) :
    PolicyValidator.validate (.obj pkvs) = .ok ⟨false,
      ["Destination 0: cannot specify both " ++ quoted "cidr" ++ " and " ++ quoted "awsService"]⟩ := by
  have hanyc := any_key_of_jLookup dkvs "cidr" c hcid
  have hanys := any_key_of_jLookup dkvs "awsService" (.str sv) hsvc
  unfold PolicyValidator.validate PolicyValidator.validateDests
  unfold PolicyValidator._validate_destination
  simp only [pyGetOpt, pyIn, pyIndex, pyLower, bind, Except.bind, pure, Except.pure,
    Option.getD_some, hda, hdest, hname, hports, hanyc, hanys, hcid, hcok, hsvc, hsup, hreg]
  rfl

/-- C4 witness: a concrete destination with both targets set yields exactly
the mutual-exclusion error. -/
theorem both_cidr_and_service_one_error_w :
    PolicyValidator.validate (.obj [("defaultAction", .str "deny"),
        ("allowedDestinations", .arr [.obj [("name", .str "mixed"),
          ("ports", .arr [.num 443]), ("cidr", .str "10.0.0.0/16"),
          ("awsService", .str "s3"), ("regions", .arr [.str "us-east-1"])]])]) =
      .ok ⟨false, ["Destination 0: cannot specify both " ++ quoted "cidr" ++
        " and " ++ quoted "awsService"]⟩ := by
  exact both_cidr_and_service_one_error
    [("defaultAction", .str "deny"),
      ("allowedDestinations", .arr [.obj [("name", .str "mixed"),
        ("ports", .arr [.num 443]), ("cidr", .str "10.0.0.0/16"),
        ("awsService", .str "s3"), ("regions", .arr [.str "us-east-1"])]])]
    [("name", .str "mixed"), ("ports", .arr [.num 443]), ("cidr", .str "10.0.0.0/16"),
      ("awsService", .str "s3"), ("regions", .arr [.str "us-east-1"])]
    (.str "10.0.0.0/16") "s3" rfl rfl rfl rfl rfl rfl rfl rfl rfl

/-- C9: every `NetworkPolicy` successfully produced by
`generate_network_policy`, for every resolver, namespace and input, has the
fixed name `egress-policy-generated`, is scoped to the given namespace, has
`policyTypes = ["Egress"]` and an empty `podSelector`. -/
theorem generated_ruleset_invariants (R : String → JVal → List String)
    (nspace : String) (policy_data : JVal) (np : NetworkPolicy)
    (h : EgressAgent.generate_network_policy R nspace policy_data = .ok np) :
    np.name = "egress-policy-generated" ∧ np.nspace = nspace ∧
      np.policyTypes = ["Egress"] ∧ np.podSelector = .obj [] := by
  unfold EgressAgent.generate_network_policy at h
  simp only [bind, Except.bind, pure, Except.pure, throw, throwThe, MonadExcept.throw] at h
  repeat' split at h
  any_goals exact Except.noConfusion h
  injection h with h2
  subst h2
  exact ⟨rfl, rfl, rfl, rfl⟩

/-- C9 witness: the invariants hold on a concrete successful translation. -/
theorem generated_ruleset_invariants_w :
    ∃ np, EgressAgent.generate_network_policy (fun _ _ => []) "tenant-a"
        (.obj [("policy.json", .str "\x7b\x7d")]) = .ok np ∧
      np.name = "egress-policy-generated" ∧ np.nspace = "tenant-a" ∧
        np.policyTypes = ["Egress"] ∧ np.podSelector = .obj [] := by
  exact ⟨⟨"networking.k8s.io/v1", "NetworkPolicy", "egress-policy-generated", "tenant-a",
    [("managed-by", "egress-agent")], .obj [], ["Egress"], []⟩, rfl,
    generated_ruleset_invariants (fun _ _ => []) "tenant-a" (.obj [("policy.json", .str "\x7b\x7d")])
      ⟨"networking.k8s.io/v1", "NetworkPolicy", "egress-policy-generated", "tenant-a",
        [("managed-by", "egress-agent")], .obj [], ["Egress"], []⟩ rfl⟩

/-- C1: a policy accepted by the validator whose destination list holds
exactly one destination, that destination specifying a CIDR (a string value
under the `cidr` key) and a list of ports, translates to exactly one egress
rule whose destination address is that literal CIDR string and whose ports
are the destination's ports, each with protocol `TCP`. -/
theorem translate_single_cidr (R : String → JVal → List String) (nspace : String)
    (kvs pkvs dkvs : List (String × JVal)) (s : String) (vr : ValidationResult)
    (c : String) (ps : List JVal)
    (hpj : jLookup kvs "policy.json" = some (.str s))
    (hload : loads s = .ok (.obj pkvs))
    (hvr : PolicyValidator.validate (.obj pkvs) = .ok vr)
    (hv : vr.is_valid = true)
    (hdest : jLookup pkvs "allowedDestinations" = some (.arr [.obj dkvs]))
    (hcidr : jLookup dkvs "cidr" = some (.str c))
    (hports : jLookup dkvs "ports" = some (.arr ps)) :
    EgressAgent.generate_network_policy R nspace (.obj kvs) =
      .ok ⟨"networking.k8s.io/v1", "NetworkPolicy", "egress-policy-generated", nspace,
        [("managed-by", "egress-agent")], .obj [], ["Egress"],
        [⟨[.str c], ps.map (fun p => ⟨"TCP", p⟩)⟩]⟩ := by
  have hanyc := any_key_of_jLookup dkvs "cidr" (.str c) hcidr
  unfold EgressAgent.generate_network_policy EgressAgent.buildEgress
  unfold EgressAgent._create_egress_rule
  simp [pyGetOpt, pyIter, pyIndex, pyIn, bind, Except.bind, pure, Except.pure,
    Option.getD_some, hpj, hload, hvr, hv, hdest, hcidr, hports, hanyc]
  rfl

/-- A single-CIDR policy document (C1 scenario). -/
def c1wJson : String :=
  "\x7b\"defaultAction\": \"deny\", \"allowedDestinations\": [\x7b\"name\": \"onprem\", \"ports\": [443, 80], \"cidr\": \"10.1.0.0/16\"\x7d]\x7d"

set_option maxRecDepth 4000 in
/-- C1 witness: the concrete single-CIDR policy yields exactly one rule with
the literal CIDR and TCP ports 443 and 80. -/
theorem translate_single_cidr_w :
    EgressAgent.generate_network_policy (fun _ _ => []) "tenant-a"
      (.obj [("policy.json", .str c1wJson)]) =
      .ok ⟨"networking.k8s.io/v1", "NetworkPolicy", "egress-policy-generated", "tenant-a",
        [("managed-by", "egress-agent")], .obj [], ["Egress"],
        [⟨[.str "10.1.0.0/16"], [⟨"TCP", .num 443⟩, ⟨"TCP", .num 80⟩]⟩]⟩ := by
  have h := translate_single_cidr (fun _ _ => []) "tenant-a"
    [("policy.json", .str c1wJson)]
    [("defaultAction", .str "deny"), ("allowedDestinations", .arr [.obj
      [("name", .str "onprem"), ("ports", .arr [.num 443, .num 80]),
        ("cidr", .str "10.1.0.0/16")]])]
    [("name", .str "onprem"), ("ports", .arr [.num 443, .num 80]),
      ("cidr", .str "10.1.0.0/16")]
    c1wJson ⟨true, []⟩ "10.1.0.0/16" [.num 443, .num 80]
    rfl rfl rfl rfl rfl rfl rfl
  exact h.trans (by rfl)

/-- The claim-side rule for one destination, following the spec's words
(§4.3): a CIDR target maps 1:1 to one rule with that literal CIDR and the
destination's ports (protocol TCP); a service target with an empty resolved
set contributes no rule, otherwise one rule using only the first resolved
address; anything else contributes no rule. -/
def specRuleForDestination (R : String → JVal → List String) (d : JVal) :
    Option EgressRule :=
  match d with
  | .obj dkvs =>
    let ports : List PortEntry :=
      match jLookup dkvs "ports" with
      | some (.arr ps) => ps.map (fun p => ⟨"TCP", p⟩)
      | _ => []
    (match jLookup dkvs "cidr" with
     | some c => some ⟨[c], ports⟩
     | none =>
       match jLookup dkvs "awsService" with
       | some (.str sv) =>
         (match R (lowerStr sv) ((jLookup dkvs "regions").getD (.arr [])) with
          | [] => none
          | c0 :: _ => some ⟨[.str c0], ports⟩)
       | _ => none)
  | _ => none

/-- The destination shapes covered by the C2 refinement: a dict whose `ports`
value is a list and whose `awsService` value, when present, is a string. -/
def destShapeOk : JVal → Bool
  | .obj dkvs =>
    (match jLookup dkvs "ports" with
     | some (.arr _) => true
     | _ => false) &&
    (match jLookup dkvs "awsService" with
     | none => true
     | some (.str _) => true
     | _ => false)
  | _ => false

/-- The translator's destination loop realises the claim-side rule list:
destinations resolving to nothing are omitted, the others contribute exactly
one rule each, in source order. -/
theorem buildEgress_refines_spec (R : String → JVal → List String) :
    ∀ ds : List JVal, ds.all destShapeOk = true →
      EgressAgent.buildEgress R ds = .ok (ds.filterMap (specRuleForDestination R)) := by
  intro ds
  induction ds with
  | nil => intro _; rfl
  | cons d rest ih =>
    intro hall
    rw [List.all_cons, Bool.and_eq_true] at hall
    have hg := ih hall.2
    have hd := hall.1
    cases d with
    | obj dkvs =>
      simp only [destShapeOk, Bool.and_eq_true] at hd
      rcases hports : jLookup dkvs "ports" with _ | pv
      · rw [hports] at hd; simp at hd
      rcases pv with _ | _ | _ | _ | ps | _ <;> rw [hports] at hd <;>
        try (simp at hd; done)
      rcases hcid : jLookup dkvs "cidr" with _ | cv
      · have hnoc := none_key_of_jLookup dkvs "cidr" hcid
        rcases hsvc : jLookup dkvs "awsService" with _ | sv
        · have hnos := none_key_of_jLookup dkvs "awsService" hsvc
          unfold EgressAgent.buildEgress EgressAgent._create_egress_rule
          simp [pyGetOpt, pyIter, pyIn, bind, Except.bind, pure, Except.pure,
            Option.getD_some, hports, hnoc, hnos, hg, specRuleForDestination,
            hcid, hsvc, List.filterMap_cons]
        · rcases sv with _ | _ | _ | svs | _ | _ <;> rw [hsvc] at hd <;>
            try (simp at hd; done)
          have hanys := any_key_of_jLookup dkvs "awsService" (.str svs) hsvc
          unfold EgressAgent.buildEgress EgressAgent._create_egress_rule
          cases hR : R (lowerStr svs) ((jLookup dkvs "regions").getD (.arr [])) with
          | nil =>
            simp [pyGetOpt, pyIter, pyIn, pyIndex, pyLower, bind, Except.bind,
              pure, Except.pure, Option.getD_some, hports, hnoc, hanys, hsvc, hR,
              hg, specRuleForDestination, hcid, List.filterMap_cons]
          | cons c0 cs =>
            simp [pyGetOpt, pyIter, pyIn, pyIndex, pyLower, bind, Except.bind,
              pure, Except.pure, Option.getD_some, hports, hnoc, hanys, hsvc, hR,
              hg, specRuleForDestination, hcid, List.filterMap_cons]
      · have hanyc := any_key_of_jLookup dkvs "cidr" cv hcid
        unfold EgressAgent.buildEgress EgressAgent._create_egress_rule
        simp [pyGetOpt, pyIter, pyIn, pyIndex, bind, Except.bind, pure, Except.pure,
          Option.getD_some, hports, hanyc, hcid, hg, specRuleForDestination,
          List.filterMap_cons]
    | null => simp [destShapeOk] at hd
    | bool x => simp [destShapeOk] at hd
    | num x => simp [destShapeOk] at hd
    | str x => simp [destShapeOk] at hd
    | arr x => simp [destShapeOk] at hd

/-- C2: on an accepted policy whose destinations all have list-shaped ports
and string service names, the translator emits, in source order: for each
service destination, no rule when the resolver returns an empty sequence and
exactly one rule carrying only the first resolved address otherwise (and for
each CIDR destination its literal rule) — the claim-side `filterMap` of
`specRuleForDestination`. -/
theorem translate_service_rules (R : String → JVal → List String) (nspace : String)
    (kvs pkvs : List (String × JVal)) (s : String) (vr : ValidationResult)
    (ds : List JVal)
    (hpj : jLookup kvs "policy.json" = some (.str s))
    (hload : loads s = .ok (.obj pkvs))
    (hvr : PolicyValidator.validate (.obj pkvs) = .ok vr)
    (hv : vr.is_valid = true)
    (hdest : (jLookup pkvs "allowedDestinations").getD (.arr []) = .arr ds)
    (hshape : ds.all destShapeOk = true) :
    EgressAgent.generate_network_policy R nspace (.obj kvs) =
      .ok ⟨"networking.k8s.io/v1", "NetworkPolicy", "egress-policy-generated", nspace,
        [("managed-by", "egress-agent")], .obj [], ["Egress"],
        ds.filterMap (specRuleForDestination R)⟩ := by
  have hb := buildEgress_refines_spec R ds hshape
  unfold EgressAgent.generate_network_policy
  simp [pyGetOpt, pyIter, bind, Except.bind, pure, Except.pure,
    Option.getD_some, hpj, hload, hvr, hv, hdest, hb]

/-- A policy with two service destinations and one CIDR destination
(C2 scenario). -/
def c2wJson : String :=
  "\x7b\"allowedDestinations\": [\x7b\"name\": \"s3\", \"ports\": [443], \"awsService\": \"s3\", \"regions\": [\"us-east-1\"]\x7d, \x7b\"name\": \"db\", \"ports\": [5432], \"cidr\": \"10.2.0.0/24\"\x7d, \x7b\"name\": \"rds\", \"ports\": [3306], \"awsService\": \"rds\", \"regions\": [\"eu-west-1\"]\x7d]\x7d"

/-- The resolver used in the C2 witness: two prefixes for s3, none for rds. -/
def c2wResolver : String → JVal → List String :=
  fun sv _ => if sv == "s3" then ["52.216.0.0/15", "54.231.0.0/17"] else []

set_option maxRecDepth 8000 in
/-- C2 witness: the s3 destination contributes one rule carrying only the
first resolved prefix, the rds destination (resolving to nothing) is
omitted, and rule order follows destination order. -/
theorem translate_service_rules_w :
    EgressAgent.generate_network_policy c2wResolver "tenant-c"
      (.obj [("policy.json", .str c2wJson)]) =
      .ok ⟨"networking.k8s.io/v1", "NetworkPolicy", "egress-policy-generated", "tenant-c",
        [("managed-by", "egress-agent")], .obj [], ["Egress"],
        [⟨[.str "52.216.0.0/15"], [⟨"TCP", .num 443⟩]⟩,
          ⟨[.str "10.2.0.0/24"], [⟨"TCP", .num 5432⟩]⟩]⟩ := by
  have h := translate_service_rules c2wResolver "tenant-c"
    [("policy.json", .str c2wJson)]
    [("allowedDestinations", .arr [
      .obj [("name", .str "s3"), ("ports", .arr [.num 443]),
        ("awsService", .str "s3"), ("regions", .arr [.str "us-east-1"])],
      .obj [("name", .str "db"), ("ports", .arr [.num 5432]),
        ("cidr", .str "10.2.0.0/24")],
      .obj [("name", .str "rds"), ("ports", .arr [.num 3306]),
        ("awsService", .str "rds"), ("regions", .arr [.str "eu-west-1"])]])]
    c2wJson ⟨true, []⟩
    [.obj [("name", .str "s3"), ("ports", .arr [.num 443]),
        ("awsService", .str "s3"), ("regions", .arr [.str "us-east-1"])],
      .obj [("name", .str "db"), ("ports", .arr [.num 5432]),
        ("cidr", .str "10.2.0.0/24")],
      .obj [("name", .str "rds"), ("ports", .arr [.num 3306]),
        ("awsService", .str "rds"), ("regions", .arr [.str "eu-west-1"])]]
    rfl rfl rfl rfl rfl rfl
  exact h.trans (by rfl)

/-- C6: whenever `resolve_service_cidrs` actually consults the external
source (no fresh cache hit) and the fetch-and-filter computation fails —
network error, non-2xx, malformed payload — the call returns the empty list
and leaves the state unchanged; by its return type the exception never
escapes to the caller. -/
theorem resolve_failure_returns_empty (fetch : Except String JVal) (now : Nat)
    (st : AWSServiceResolver.ResolverState) (service : String) (regions : List String)
    (e : String)
    (hfail : AWSServiceResolver.fetchCidrs fetch service regions = .error e)
    (hmiss : ((AWSServiceResolver.jStrsLookup st.cache
        (AWSServiceResolver.cacheKey service regions)).isSome &&
      decide (now - st.last_fetch < AWSServiceResolver.CACHE_TTL)) = false) :
    AWSServiceResolver.resolve_service_cidrs fetch now st service regions = ([], st) := by
  unfold AWSServiceResolver.resolve_service_cidrs
  simp only [hmiss, hfail, Bool.false_eq_true, if_false]

/-- C6 witness: a connection failure on an empty cache resolves to `[]`. -/
theorem resolve_failure_returns_empty_w :
    AWSServiceResolver.resolve_service_cidrs (.error "ConnectionError: timed out") 0
      ⟨[], 0⟩ "s3" ["us-east-1"] = ([], ⟨[], 0⟩) := by
  exact resolve_failure_returns_empty (.error "ConnectionError: timed out") 0
    ⟨[], 0⟩ "s3" ["us-east-1"] "ConnectionError: timed out" rfl rfl

/-- Address-range payload answering for S3 in us-east-1 (C5 scenario). -/
def c5FetchS3 : Except String JVal :=
  .ok (.obj [("prefixes", .arr [.obj [("ip_prefix", .str "52.216.0.0/15"),
    ("region", .str "us-east-1"), ("service", .str "S3")]])])

/-- Address-range payload answering for EC2 in us-east-1 (C5 scenario). -/
def c5FetchEC2 : Except String JVal :=
  .ok (.obj [("prefixes", .arr [.obj [("ip_prefix", .str "3.5.0.0/16"),
    ("region", .str "us-east-1"), ("service", .str "EC2")]])])

/-- Resolver state after fetching the s3 key at time 0. -/
def c5St1 : AWSServiceResolver.ResolverState :=
  (AWSServiceResolver.resolve_service_cidrs c5FetchS3 0 ⟨[], 0⟩ "s3" ["us-east-1"]).2

/-- Resolver state after additionally fetching the ec2 key at time 3599. -/
def c5St2 : AWSServiceResolver.ResolverState :=
  (AWSServiceResolver.resolve_service_cidrs c5FetchEC2 3599 c5St1 "ec2" ["us-east-1"]).2

/-- C5: the shared freshness clock lets an unrelated fetch extend a stale
entry's life.  The s3 entry is fetched at time 0; an ec2 fetch at time 3599
bumps the single `last_fetch`; at time 4000 the s3 entry's own age (4000)
exceeds the TTL, yet the resolver serves the cached value without any fetch
(the fetch argument is a failure, and the state is returned unchanged, so a
fetch would have yielded `[]`).  Freshness of a key is therefore not a
function of that key's own fetch time, contradicting the claim. -/
theorem shared_clock_extends_freshness :
    c5St1.last_fetch = 0 ∧
    AWSServiceResolver.CACHE_TTL ≤ 4000 - c5St1.last_fetch ∧
    AWSServiceResolver.resolve_service_cidrs (.error "unreachable") 4000 c5St2
      "s3" ["us-east-1"] = (["52.216.0.0/15"], c5St2) := by
  exact ⟨rfl, by decide, rfl⟩

/-- C8: the gate is fail-closed: whenever the handler body raises (any
internal failure on any input), `validate_configmap` catches it and answers a
deny decision carrying the generic internal-error message and HTTP status
500; the embedding is a pure function, so the gate calls no mutating
capability and lets no exception escape. -/
theorem gate_fail_closed (ar : JVal) (e : String) (u : JVal)
    (h : validateConfigmapBody ar = .error (e, u)) :
    validate_configmap (.ok ar) =
      (create_admission_response false ("Internal validation error: " ++ e) u, 500) ∧
    (validate_configmap (.ok ar)).1.allowed = false := by
  unfold validate_configmap
  constructor
  · simp only [h]
  · simp only [h]
    rfl

/-- A managed admission document whose `data` field is a number, so the gate
body raises on `data.get` (C8 scenario). -/
def c8wDoc : JVal :=
  .obj [("request", .obj [("uid", .str "u1"),
    ("object", .obj [("metadata", .obj [("labels",
      .obj [("egress-controller", .str "managed")])]), ("data", .num 5)])])]

/-- C8 witness: a managed document whose `data` field is a number makes the
body raise (`data.get` on an int); the gate answers deny/500. -/
theorem gate_fail_closed_w :
    validate_configmap (.ok c8wDoc) =
      (create_admission_response false
        ("Internal validation error: " ++
          "AttributeError: object has no attribute get (key policy.json)") (.str "u1"), 500) ∧
    (validate_configmap (.ok c8wDoc)).1.allowed = false := by
  exact gate_fail_closed c8wDoc
    "AttributeError: object has no attribute get (key policy.json)" (.str "u1") rfl

/-- C7: a document without the `egress-controller=managed` label is allowed,
with a decision and message fixed by the code path — independent of the
document's payload (`data`) content, which the path never reads. -/
theorem unmanaged_always_allowed (akvs rkvs ckvs mkvs lkvs : List (String × JVal))
    (hne : akvs.isEmpty = false)
    (hreq : (jLookup akvs "request").getD (.obj []) = .obj rkvs)
    (hobj : (jLookup rkvs "object").getD (.obj []) = .obj ckvs)
    (hmd : (jLookup ckvs "metadata").getD (.obj []) = .obj mkvs)
    (hlb : (jLookup mkvs "labels").getD (.obj []) = .obj lkvs)
    (hum : isManaged (jLookup lkvs "egress-controller") = false) :
    validate_configmap (.ok (.obj akvs)) =
      (create_admission_response true "Not an egress policy ConfigMap"
        ((jLookup rkvs "uid").getD (.str "")), 200) ∧
    (validate_configmap (.ok (.obj akvs))).1.allowed = true ∧
    (validate_configmap (.ok (.obj akvs))).1.message = "Not an egress policy ConfigMap" := by
  have h : validate_configmap (.ok (.obj akvs)) =
      (create_admission_response true "Not an egress policy ConfigMap"
        ((jLookup rkvs "uid").getD (.str "")), 200) := by
    unfold validate_configmap validateConfigmapBody
    simp [eU, pyGetOpt, bind, Except.bind, pure, Except.pure, pyTruthy,
      hne, hreq, hobj, hmd, hlb, hum]
  exact ⟨h, by rw [h]; rfl, by rw [h]; rfl⟩

/-- C7 witness: two unmanaged documents with different payloads both get the
same allow decision and message. -/
theorem unmanaged_always_allowed_w :
    validate_configmap (.ok (.obj [("request", .obj [("uid", .str "u9"),
        ("object", .obj [("metadata", .obj [("labels", .obj [("app", .str "x")])]),
          ("data", .obj [("policy.json", .str "garbage \x7b")])])])])) =
      (create_admission_response true "Not an egress policy ConfigMap" (.str "u9"), 200) ∧
    validate_configmap (.ok (.obj [("request", .obj [("uid", .str "u9"),
        ("object", .obj [("metadata", .obj [("labels", .obj [("app", .str "x")])]),
          ("data", .obj [("policy.json", .str "\x7b\"defaultAction\": \"allow\"\x7d")])])])])) =
      (create_admission_response true "Not an egress policy ConfigMap" (.str "u9"), 200) := by
  constructor
  · exact (unmanaged_always_allowed [("request", .obj [("uid", .str "u9"),
      ("object", .obj [("metadata", .obj [("labels", .obj [("app", .str "x")])]),
        ("data", .obj [("policy.json", .str "garbage \x7b")])])])]
      [("uid", .str "u9"), ("object", .obj [("metadata", .obj [("labels",
        .obj [("app", .str "x")])]), ("data", .obj [("policy.json", .str "garbage \x7b")])])]
      [("metadata", .obj [("labels", .obj [("app", .str "x")])]),
        ("data", .obj [("policy.json", .str "garbage \x7b")])]
      [("labels", .obj [("app", .str "x")])]
      [("app", .str "x")] rfl rfl rfl rfl rfl rfl).1
  · exact (unmanaged_always_allowed [("request", .obj [("uid", .str "u9"),
      ("object", .obj [("metadata", .obj [("labels", .obj [("app", .str "x")])]),
        ("data", .obj [("policy.json", .str "\x7b\"defaultAction\": \"allow\"\x7d")])])])]
      [("uid", .str "u9"), ("object", .obj [("metadata", .obj [("labels",
        .obj [("app", .str "x")])]), ("data", .obj [("policy.json",
        .str "\x7b\"defaultAction\": \"allow\"\x7d")])])]
      [("metadata", .obj [("labels", .obj [("app", .str "x")])]),
        ("data", .obj [("policy.json", .str "\x7b\"defaultAction\": \"allow\"\x7d")])]
      [("labels", .obj [("app", .str "x")])]
      [("app", .str "x")] rfl rfl rfl rfl rfl rfl).1

/-- C10: a managed document whose `data` lacks the `policy.json` key
translates without failing — the payload defaults to the empty object, which
validates (deny default, no destinations), yielding a rule set with an empty
egress sequence (deny-all) — while the admission gate denies that same
document for its empty payload. -/
theorem missing_payload_defaults (R : String → JVal → List String) (nspace : String)
    (uid : JVal) (kvs : List (String × JVal))
    (hnone : jLookup kvs "policy.json" = none) :
    EgressAgent.generate_network_policy R nspace (.obj kvs) =
      .ok ⟨"networking.k8s.io/v1", "NetworkPolicy", "egress-policy-generated", nspace,
        [("managed-by", "egress-agent")], .obj [], ["Egress"], []⟩ ∧
    validate_configmap (.ok (.obj [("request", .obj [("uid", uid),
        ("object", .obj [("metadata", .obj [("labels",
          .obj [("egress-controller", .str "managed")])]), ("data", .obj kvs)])])])) =
      (create_admission_response false "Missing policy.json in ConfigMap data" uid, 400) := by
  constructor
  · unfold EgressAgent.generate_network_policy
    simp only [pyGetOpt, bind, Except.bind, pure, Except.pure, hnone, Option.getD_none]
    rfl
  · have hpj : (jLookup kvs "policy.json").getD (.str "") = .str "" := by
      rw [hnone]
      rfl
    unfold validate_configmap validateConfigmapBody
    simp [eU, pyGetOpt, bind, Except.bind, pure, Except.pure, pyTruthy, isManaged,
      jLookup_cons_self, jLookup_cons_ne, Option.getD_some, Option.getD_none,
      hpj, pyStrip]

/-- C10 witness: concrete document whose data holds only an unrelated key. -/
theorem missing_payload_defaults_w :
    EgressAgent.generate_network_policy (fun _ _ => ["10.0.0.0/8"]) "tenant-b"
      (.obj [("readme", .str "hello")]) =
      .ok ⟨"networking.k8s.io/v1", "NetworkPolicy", "egress-policy-generated", "tenant-b",
        [("managed-by", "egress-agent")], .obj [], ["Egress"], []⟩ ∧
    validate_configmap (.ok (.obj [("request", .obj [("uid", .str "u4"),
        ("object", .obj [("metadata", .obj [("labels",
          .obj [("egress-controller", .str "managed")])]),
          ("data", .obj [("readme", .str "hello")])])])])) =
      (create_admission_response false "Missing policy.json in ConfigMap data" (.str "u4"), 400) := by
  exact missing_payload_defaults (fun _ _ => ["10.0.0.0/8"]) "tenant-b" (.str "u4")
    [("readme", .str "hello")] rfl

end EgressSpec
